import Mathlib

/-!
Verification of the AI-Virtual-Mouse gesture-interpretation core.

Shallow embedding of the Python sources under `src/`:
  * `src/config.py`            — configuration constants
  * `src/scroll_handler.py`    — `ScrollHandler` (progressive speed, smoothing, gating)
  * `src/gesture_handler.py`   — `GestureHandler` (per-frame arbiter, drag state machine)
  * `src/hand_detector.py`     — `HandDetector.find_distance`

Machine reals of the Python code are modelled by exact rationals `ℚ`
(the operations the claims touch stay well inside the exactly
representable range, and every comparison in the code is strict, so
float rounding does not change any branch decided here).  Wall-clock
`time.time()` is modelled by a per-frame timestamp carried in the frame
input; the at-most-two calls to `time.time()` inside a single frame are
identified with that timestamp.  Mouse-controller calls are modelled as
an emitted command list.
-/

/-- Constant from `config.py` line 7: `CAMERA_WIDTH = 640`. -/
def CAMERA_WIDTH : ℚ := 640

/-- Constant from `config.py` line 8: `CAMERA_HEIGHT = 480`. -/
def CAMERA_HEIGHT : ℚ := 480

/-- Constant from `config.py` line 12: `FRAME_REDUCTION = 100`. -/
def FRAME_REDUCTION : ℚ := 100

/-- Constant from `config.py` line 13: `SMOOTHENING = 7`. -/
def SMOOTHENING : ℚ := 7

/-- Constant from `config.py` line 16: `BASE_SCROLL_SENSITIVITY = 5.0`. -/
def BASE_SCROLL_SENSITIVITY : ℚ := 5

/-- Constant from `config.py` line 17: `MAX_SCROLL_SENSITIVITY = 20.0`. -/
def MAX_SCROLL_SENSITIVITY : ℚ := 20

/-- Constant from `config.py` line 18: `SCROLL_DELAY = 0.02`. -/
def SCROLL_DELAY : ℚ := 1/50

/-- Constant from `config.py` line 19: `SCROLL_HISTORY_LENGTH = 3`. -/
def SCROLL_HISTORY_LENGTH : ℕ := 3

/-- Constant from `config.py` line 22: `DRAG_CLICK_THRESHOLD = 0.3`. -/
def DRAG_CLICK_THRESHOLD : ℚ := 3/10

/-- Constant from `config.py` line 25: `PINCH_DISTANCE_THRESHOLD = 40`. -/
def PINCH_DISTANCE_THRESHOLD : ℚ := 40

/-- Constant from `config.py` line 43: `SCROLL_NEUTRAL_ZONE_HEIGHT_RATIO = 1/5`. -/
def SCROLL_NEUTRAL_ZONE_HEIGHT_RATIO : ℚ := 1/5

/-- Constant from `config.py` line 44: `SCROLL_BOOST_MULTIPLIER = 15`. -/
def SCROLL_BOOST_MULTIPLIER : ℚ := 15

/-- Python `int(q)`: truncation toward zero (`Int.tdiv` truncates). -/
def pyInt (q : ℚ) : ℤ := Int.tdiv q.num q.den

/-- Source `scroll_handler.py` line 53:
`neutral_zone_height = int(CAMERA_HEIGHT * SCROLL_NEUTRAL_ZONE_HEIGHT_RATIO)`. -/
def neutral_zone_height : ℤ := pyInt (CAMERA_HEIGHT * SCROLL_NEUTRAL_ZONE_HEIGHT_RATIO)

/-- Source `scroll_handler.py` line 54:
`neutral_top = (CAMERA_HEIGHT - neutral_zone_height) // 2` (Python `//` floors). -/
def neutral_top : ℤ := Int.fdiv (480 - neutral_zone_height) 2

/-- Source `scroll_handler.py` line 55:
`neutral_bottom = (CAMERA_HEIGHT + neutral_zone_height) // 2`. -/
def neutral_bottom : ℤ := Int.fdiv (480 + neutral_zone_height) 2

/-- Source `scroll_handler.py` lines 42-75, `ScrollHandler.get_progressive_speed`:
neutral zone returns 0; top zone returns
`-(BASE) + (MAX - BASE) * ((neutral_top - y)/neutral_top)^2`
(the code really adds the quadratic term, line 67); bottom zone returns
`BASE + (MAX - BASE) * ((y - neutral_bottom)/(CAMERA_HEIGHT - neutral_bottom))^2`. -/
def get_progressive_speed (y : ℚ) : ℚ :=
  if (neutral_top : ℚ) ≤ y ∧ y ≤ (neutral_bottom : ℚ) then 0
  else if y < (neutral_top : ℚ) then
    -BASE_SCROLL_SENSITIVITY +
      (MAX_SCROLL_SENSITIVITY - BASE_SCROLL_SENSITIVITY) *
        (((neutral_top : ℚ) - y) / (neutral_top : ℚ)) ^ 2
  else
    BASE_SCROLL_SENSITIVITY +
      (MAX_SCROLL_SENSITIVITY - BASE_SCROLL_SENSITIVITY) *
        ((y - (neutral_bottom : ℚ)) / (CAMERA_HEIGHT - (neutral_bottom : ℚ))) ^ 2

/-- Modelled from the spec (for comparison with the code): the spec's
top-zone formula `speed = -(base) - (max-base) * ((neutral_top - y)/neutral_top)^2`,
which subtracts the quadratic term. -/
def specTopZoneSpeed (y : ℚ) : ℚ :=
  -BASE_SCROLL_SENSITIVITY -
    (MAX_SCROLL_SENSITIVITY - BASE_SCROLL_SENSITIVITY) *
      (((neutral_top : ℚ) - y) / (neutral_top : ℚ)) ^ 2

unseal Rat.mul Rat.add Rat.sub Rat.inv in
theorem neutral_top_eq : neutral_top = 192 := by decide

unseal Rat.mul Rat.add Rat.sub Rat.inv in
theorem neutral_bottom_eq : neutral_bottom = 288 := by decide

unseal Rat.mul Rat.add Rat.sub Rat.inv in
/-- Claim C1. The spec says the top-zone speed is
`-(base) - (max-base) * ((neutral_top - y)/neutral_top)^2`, hence `-20.0` at
`y = 0`; the code (scroll_handler.py line 67) instead ADDS the quadratic
term and returns `+10.0` at `y = 0` — a positive (scroll-down) speed in the
"scrolling up" zone, contradicting the function's own docstring
("negative for up").  This theorem records the divergence at the failing
input `y = 0`: the code's value is 10, the spec formula's value is -20. -/
theorem C1_top_zone_speed_bug :
    get_progressive_speed 0 = 10 ∧ specTopZoneSpeed 0 = -20 ∧
      (0 : ℚ) < get_progressive_speed 0 := by
  refine ⟨by decide, by decide, by decide⟩

/-- Top-zone closed form of the code's speed. -/
theorem get_progressive_speed_top (y : ℚ) (hy : y < 192) :
    get_progressive_speed y = -5 + 15 * ((192 - y) / 192) ^ 2 := by
  have h1 : neutral_top = 192 := neutral_top_eq
  unfold get_progressive_speed
  rw [h1]
  rw [if_neg (by push_cast; intro h; linarith [h.1]), if_pos (by push_cast; linarith)]
  norm_num [BASE_SCROLL_SENSITIVITY, MAX_SCROLL_SENSITIVITY]

/-- Bottom-zone closed form of the code's speed. -/
theorem get_progressive_speed_bottom (y : ℚ) (hy : 288 < y) :
    get_progressive_speed y = 5 + 15 * ((y - 288) / 192) ^ 2 := by
  have h1 : neutral_top = 192 := neutral_top_eq
  have h2 : neutral_bottom = 288 := neutral_bottom_eq
  unfold get_progressive_speed
  rw [h1, h2]
  rw [if_neg (by push_cast; intro h; linarith [h.2]), if_neg (by push_cast; linarith)]
  norm_num [BASE_SCROLL_SENSITIVITY, MAX_SCROLL_SENSITIVITY, CAMERA_HEIGHT]

unseal Rat.mul Rat.add Rat.sub Rat.inv in
/-- Counterexample to Claim C3 as stated: at the top edge `y = 0` the code
returns `10`, not `-20 = -max`; and the magnitude is not monotone toward the
top edge, since `|speed 100| < |speed 191|` although `100` is closer to the
frame edge than `191`; and the speed jumps from `0` at `y = 288` (zone edge)
to more than `5` at `y = 289`, so it is not continuous at the zone boundary. -/
theorem C3_counterexample :
    get_progressive_speed 0 = 10 ∧ ¬ get_progressive_speed 0 = -20 ∧
      |get_progressive_speed 100| < |get_progressive_speed 191| ∧
      get_progressive_speed 288 = 0 ∧ 5 < get_progressive_speed 289 := by
  refine ⟨by decide, by decide, by decide, by decide, by decide⟩

unseal Rat.mul Rat.add Rat.sub Rat.inv in
/-- Claim C3, amended to what the code does.  Below the neutral zone the
speed is strictly increasing in `y` and reaches exactly `+max = 20` at
`y = H = 480`; above the neutral zone the code computes
`-base + (max-base) * ((neutral_top - y)/neutral_top)^2`, whose magnitude is
NOT monotone (witness `y = 100` vs `y = 191`) and which equals `+10`, not
`-max`, at `y = 0`; and the speed is not continuous at the zone edges: it is
`0` at `y = 288` but exceeds `base = 5` already at `y = 289`. -/
theorem C3_amended_speed_profile :
    (∀ y1 y2 : ℚ, 288 < y1 → y1 < y2 → y2 ≤ 480 →
        get_progressive_speed y1 < get_progressive_speed y2) ∧
      get_progressive_speed 480 = MAX_SCROLL_SENSITIVITY ∧
      get_progressive_speed 0 = 10 ∧
      (∀ y : ℚ, y < 192 →
        get_progressive_speed y = -5 + 15 * ((192 - y) / 192) ^ 2) ∧
      |get_progressive_speed 100| < |get_progressive_speed 191| ∧
      get_progressive_speed 288 = 0 ∧ 5 < get_progressive_speed 289 := by
  refine ⟨?_, by decide, by decide, fun y hy => get_progressive_speed_top y hy,
    by decide, by decide, by decide⟩
  intro y1 y2 h1 h12 h2
  rw [get_progressive_speed_bottom y1 h1,
      get_progressive_speed_bottom y2 (lt_trans h1 h12)]
  have hb : (0 : ℚ) < y1 - 288 := by linarith
  nlinarith [sq_nonneg (y1 - 288), sq_nonneg (y2 - 288), sq_nonneg (y2 - y1)]

/-- Witness for `C3_amended_speed_profile` at concrete inputs. -/
theorem C3_amended_speed_profile_witness :
    get_progressive_speed 300 < get_progressive_speed 400 ∧
      get_progressive_speed 50 = -5 + 15 * ((192 - 50) / 192) ^ 2 :=
  ⟨C3_amended_speed_profile.1 300 400 (by norm_num) (by norm_num) (by norm_num),
   C3_amended_speed_profile.2.2.2.1 50 (by norm_num)⟩

unseal Rat.mul Rat.add Rat.sub Rat.inv in
/-- Claim C10.  The neutral zone is the central band `[192, 288]`:
height `neutral_bottom - neutral_top = 96 = 480 / 5` and centered at
`H / 2 = 240` (the endpoints sum to `480`); for every `y` strictly between
`neutral_top` and `neutral_bottom` the code returns speed `0`. -/
theorem C10_neutral_zone_speed_zero :
    neutral_bottom - neutral_top = 96 ∧ neutral_top + neutral_bottom = 480 ∧
      ∀ y : ℚ, (neutral_top : ℚ) < y → y < (neutral_bottom : ℚ) →
        get_progressive_speed y = 0 := by
  refine ⟨by decide, by decide, ?_⟩
  intro y h1 h2
  unfold get_progressive_speed
  rw [if_pos ⟨le_of_lt h1, le_of_lt h2⟩]

/-- Witness for `C10_neutral_zone_speed_zero` at `y = 240` (the zone center). -/
theorem C10_neutral_zone_speed_zero_witness :
    get_progressive_speed 240 = 0 :=
  C10_neutral_zone_speed_zero.2.2 240 (by rw [neutral_top_eq]; norm_num)
    (by rw [neutral_bottom_eq]; norm_num)

/-- Semantics of `numpy.interp` on the two-point grid `xp = [l, r]`, `fp = [lo, hi]`
(the form used in `gesture_handler.py` lines 120-121): numpy CLAMPS,
returning `fp[0]` for `x < xp[0]` and `fp[-1]` for `x > xp[-1]`, and
interpolates linearly in between. -/
def np_interp (x l r lo hi : ℚ) : ℚ :=
  if x < l then lo
  else if r < x then hi
  else lo + (x - l) * (hi - lo) / (r - l)

/-- Source `gesture_handler.py` line 120:
`x_mapped = np.interp(x1, (FRAME_REDUCTION, CAMERA_WIDTH - FRAME_REDUCTION), (0, w_screen))`. -/
def x_mapped (wscr x1 : ℚ) : ℚ :=
  np_interp x1 FRAME_REDUCTION (CAMERA_WIDTH - FRAME_REDUCTION) 0 wscr

/-- Source `gesture_handler.py` line 121:
`y_mapped = np.interp(y1, (FRAME_REDUCTION, CAMERA_HEIGHT - FRAME_REDUCTION), (0, h_screen))`. -/
def y_mapped (hscr y1 : ℚ) : ℚ :=
  np_interp y1 FRAME_REDUCTION (CAMERA_HEIGHT - FRAME_REDUCTION) 0 hscr

/-- Modelled from the spec (for comparison with the code): the unclamped
linear map sending `[margin, dim - margin]` to `[0, screen]` and
extrapolating linearly outside it. -/
def specLinearMap (margin dim screen x : ℚ) : ℚ :=
  (x - margin) * screen / (dim - 2 * margin)

unseal Rat.mul Rat.add Rat.sub Rat.inv in
/-- Counterexample to Claim C2 as stated: at raw coordinate `x = 0`
(outside the sub-rectangle, margin 100, screen width 1920) the code's
mapper returns the clamped value `0`, while linear extrapolation would
give `-4800/11 ≈ -436.36`; `np.interp` clamps, it does not extrapolate. -/
theorem C2_counterexample :
    x_mapped 1920 0 = 0 ∧
      specLinearMap FRAME_REDUCTION CAMERA_WIDTH 1920 0 = -4800 / 11 ∧
      ¬ (0 : ℚ) = -4800 / 11 := by
  refine ⟨by decide, by decide, by decide⟩

/-- Claim C2, amended to what the code does.  The mapper linearly maps the
sub-rectangle `[margin, dimension - margin]` (margin 100, camera 640x480)
onto `[0, screen_dimension]`, and CLAMPS coordinates outside the
sub-rectangle to the endpoint values `0` and `screen_dimension` (numpy
`interp` semantics) instead of extrapolating. -/
theorem C2_amended_mapper_clamps (wscr hscr x y : ℚ) :
    (FRAME_REDUCTION ≤ x → x ≤ CAMERA_WIDTH - FRAME_REDUCTION →
        x_mapped wscr x = (x - FRAME_REDUCTION) * wscr / (CAMERA_WIDTH - 2 * FRAME_REDUCTION)) ∧
      (x < FRAME_REDUCTION → x_mapped wscr x = 0) ∧
      (CAMERA_WIDTH - FRAME_REDUCTION < x → x_mapped wscr x = wscr) ∧
      (FRAME_REDUCTION ≤ y → y ≤ CAMERA_HEIGHT - FRAME_REDUCTION →
        y_mapped hscr y = (y - FRAME_REDUCTION) * hscr / (CAMERA_HEIGHT - 2 * FRAME_REDUCTION)) ∧
      (y < FRAME_REDUCTION → y_mapped hscr y = 0) ∧
      (CAMERA_HEIGHT - FRAME_REDUCTION < y → y_mapped hscr y = hscr) := by
  refine ⟨?_, ?_, ?_, ?_, ?_, ?_⟩
  · intro h1 h2
    show np_interp x FRAME_REDUCTION (CAMERA_WIDTH - FRAME_REDUCTION) 0 wscr = _
    unfold np_interp
    rw [if_neg (not_lt.mpr h1), if_neg (not_lt.mpr h2)]
    simp only [FRAME_REDUCTION, CAMERA_WIDTH]
    norm_num
  · intro h
    show np_interp x FRAME_REDUCTION (CAMERA_WIDTH - FRAME_REDUCTION) 0 wscr = _
    unfold np_interp
    rw [if_pos h]
  · intro h
    show np_interp x FRAME_REDUCTION (CAMERA_WIDTH - FRAME_REDUCTION) 0 wscr = _
    unfold np_interp
    rw [if_neg (by simp only [FRAME_REDUCTION, CAMERA_WIDTH] at h ⊢; push_neg; linarith), if_pos h]
  · intro h1 h2
    show np_interp y FRAME_REDUCTION (CAMERA_HEIGHT - FRAME_REDUCTION) 0 hscr = _
    unfold np_interp
    rw [if_neg (not_lt.mpr h1), if_neg (not_lt.mpr h2)]
    simp only [FRAME_REDUCTION, CAMERA_HEIGHT]
    norm_num
  · intro h
    show np_interp y FRAME_REDUCTION (CAMERA_HEIGHT - FRAME_REDUCTION) 0 hscr = _
    unfold np_interp
    rw [if_pos h]
  · intro h
    show np_interp y FRAME_REDUCTION (CAMERA_HEIGHT - FRAME_REDUCTION) 0 hscr = _
    unfold np_interp
    rw [if_neg (by simp only [FRAME_REDUCTION, CAMERA_HEIGHT] at h ⊢; push_neg; linarith), if_pos h]

/-- Witness for `C2_amended_mapper_clamps`: interior point `x = 320` maps
linearly; below-margin point `y = 50` clamps to `0`. -/
theorem C2_amended_mapper_clamps_witness :
    x_mapped 1920 320 = (320 - FRAME_REDUCTION) * 1920 / (CAMERA_WIDTH - 2 * FRAME_REDUCTION) ∧
      y_mapped 1080 50 = 0 :=
  ⟨(C2_amended_mapper_clamps 1920 1080 320 50).1
      (by norm_num [FRAME_REDUCTION]) (by norm_num [FRAME_REDUCTION, CAMERA_WIDTH]),
   (C2_amended_mapper_clamps 1920 1080 320 50).2.2.2.2.1
      (by norm_num [FRAME_REDUCTION])⟩

/-- Mouse-sink commands emitted by the gesture handler
(`mouse_controller.py` primitives, in the order issued). -/
inductive Command where
  | move (x y : ℚ)
  | click
  | rightClick
  | toggleDrag (b : Bool)
  | scroll (amount : ℤ)
deriving DecidableEq, Repr

/-- State of `ScrollHandler`: its mutable fields, `scroll_handler.py` lines 20-25
(`history_length` is the constant `SCROLL_HISTORY_LENGTH`). -/
structure ScrollState where
  scroll_mode : Bool
  scroll_history : List ℚ
  last_scroll_time : ℚ
deriving DecidableEq, Repr

/-- Initial state, `ScrollHandler.__init__`: inactive, empty history, last time 0. -/
def initScrollState : ScrollState := ⟨false, [], 0⟩

/-- Source `scroll_handler.py` lines 27-40, `ScrollHandler.smooth_scroll`:
append, pop the oldest element when the window overflows, return the
arithmetic mean of the kept window. -/
def smooth_scroll (s : ScrollState) (amt : ℚ) : ScrollState × ℚ :=
  let h1 := s.scroll_history ++ [amt]
  let h2 := if SCROLL_HISTORY_LENGTH < h1.length then h1.tail else h1
  ({ s with scroll_history := h2 }, h2.sum / (h2.length : ℚ))

/-- Source `scroll_handler.py` lines 89-101, `ScrollHandler.should_scroll`:
`current_time - last_scroll_time > SCROLL_DELAY and abs(scroll_speed) > 0.5`.
Note the test is on the RAW per-frame speed passed in by the caller. -/
def should_scroll (s : ScrollState) (t speed : ℚ) : Bool :=
  decide (SCROLL_DELAY < t - s.last_scroll_time) && decide ((1 : ℚ)/2 < |speed|)

/-- Source `scroll_handler.py` lines 103-105, `ScrollHandler.update_scroll_time`. -/
def update_scroll_time (s : ScrollState) (t : ℚ) : ScrollState :=
  { s with last_scroll_time := t }

/-- Source `scroll_handler.py` lines 107-110, `ScrollHandler.activate_scroll_mode`:
sets the flag AND clears the history. -/
def activate_scroll_mode (s : ScrollState) : ScrollState :=
  { s with scroll_mode := true, scroll_history := [] }

/-- Source `scroll_handler.py` lines 112-114, `ScrollHandler.deactivate_scroll_mode`:
clears only the flag. -/
def deactivate_scroll_mode (s : ScrollState) : ScrollState :=
  { s with scroll_mode := false }

/-- Source `scroll_handler.py` lines 116-123, `ScrollHandler.is_scroll_mode_active`. -/
def is_scroll_mode_active (s : ScrollState) : Bool := s.scroll_mode

/-- Source `gesture_handler.py` lines 194-241, `GestureHandler._handle_scroll`
(drawing calls dropped): activate scroll mode if inactive, compute the raw
progressive speed from the wrist y, and, when `should_scroll` passes on the
RAW speed, emit `scroll(int(smoothed * SCROLL_BOOST_MULTIPLIER))` and stamp
the time. -/
def handle_scroll (s : ScrollState) (t wrist_y : ℚ) : ScrollState × List Command :=
  let s1 := if ¬ is_scroll_mode_active s then activate_scroll_mode s else s
  let scroll_speed := get_progressive_speed wrist_y
  if should_scroll s1 t scroll_speed then
    let p := smooth_scroll s1 scroll_speed
    (update_scroll_time p.1 t, [Command.scroll (pyInt (p.2 * SCROLL_BOOST_MULTIPLIER))])
  else (s1, [])

/-- Scroll states reachable from the initial state through the
`ScrollHandler` interface (the only operations the program performs). -/
inductive ReachableScroll : ScrollState → Prop where
  | init : ReachableScroll initScrollState
  | smooth (s : ScrollState) (amt : ℚ) :
      ReachableScroll s → ReachableScroll (smooth_scroll s amt).1
  | act (s : ScrollState) : ReachableScroll s → ReachableScroll (activate_scroll_mode s)
  | deact (s : ScrollState) : ReachableScroll s → ReachableScroll (deactivate_scroll_mode s)
  | upd (s : ScrollState) (t : ℚ) :
      ReachableScroll s → ReachableScroll (update_scroll_time s t)
  | hscroll (s : ScrollState) (t y : ℚ) :
      ReachableScroll s → ReachableScroll (handle_scroll s t y).1

/-- Lemma: `smooth_scroll` keeps the history length within the window. -/
theorem smooth_scroll_length_le (s : ScrollState) (amt : ℚ)
    (h : s.scroll_history.length ≤ SCROLL_HISTORY_LENGTH) :
    (smooth_scroll s amt).1.scroll_history.length ≤ SCROLL_HISTORY_LENGTH := by
  simp only [smooth_scroll]
  split
  · simp only [List.length_tail, List.length_append, List.length_singleton]
    omega
  · rename_i hlen
    simp only [List.length_append, List.length_singleton] at hlen ⊢
    omega

/-- Claim C7.  `activate_scroll_mode` sets the flag and clears the history
(leaving the last-scroll timestamp unchanged); `deactivate_scroll_mode`
changes only the flag, leaving history and timestamp untouched; and every
state reachable through the handler's operations keeps the history length
at most `SCROLL_HISTORY_LENGTH = 3`. -/
theorem C7_scroll_mode_transitions :
    (∀ s : ScrollState,
        (activate_scroll_mode s).scroll_mode = true ∧
        (activate_scroll_mode s).scroll_history = [] ∧
        (activate_scroll_mode s).last_scroll_time = s.last_scroll_time ∧
        (deactivate_scroll_mode s).scroll_mode = false ∧
        (deactivate_scroll_mode s).scroll_history = s.scroll_history ∧
        (deactivate_scroll_mode s).last_scroll_time = s.last_scroll_time) ∧
      ∀ s : ScrollState, ReachableScroll s →
        s.scroll_history.length ≤ SCROLL_HISTORY_LENGTH := by
  refine ⟨fun s => ⟨rfl, rfl, rfl, rfl, rfl, rfl⟩, ?_⟩
  intro s hs
  induction hs with
  | init => simp [initScrollState, SCROLL_HISTORY_LENGTH]
  | smooth s amt _ ih => exact smooth_scroll_length_le s amt ih
  | act s _ _ => simp [activate_scroll_mode]
  | deact s _ ih => simpa [deactivate_scroll_mode] using ih
  | upd s t _ ih => simpa [update_scroll_time] using ih
  | hscroll s t y _ ih =>
      simp only [handle_scroll]
      split
      · have h1 : (activate_scroll_mode s).scroll_history.length ≤
            SCROLL_HISTORY_LENGTH := by
          simp [activate_scroll_mode, SCROLL_HISTORY_LENGTH]
        split
        · simpa [update_scroll_time] using smooth_scroll_length_le _ _ h1
        · exact h1
      · split
        · simpa [update_scroll_time] using smooth_scroll_length_le _ _ ih
        · exact ih

/-- Witness for `C7_scroll_mode_transitions`: the reachability invariant at
a concrete reachable state (one `smooth_scroll` step from the initial
state), plus the field equalities at a concrete state. -/
theorem C7_scroll_mode_transitions_witness :
    (activate_scroll_mode ⟨false, [1, 2], 7⟩).scroll_history = [] ∧
      (smooth_scroll initScrollState 4).1.scroll_history.length ≤ SCROLL_HISTORY_LENGTH :=
  ⟨(C7_scroll_mode_transitions.1 ⟨false, [1, 2], 7⟩).2.1,
   C7_scroll_mode_transitions.2 (smooth_scroll initScrollState 4).1
      (ReachableScroll.smooth initScrollState 4 ReachableScroll.init)⟩

/-- Source `hand_detector.py` lines 133-162, `HandDetector.find_distance` on a
landmark list of `[id, x, y]` entries (drawing dropped, `img` threaded
through unchanged).  The guard on line 148 returns the sentinel
`(0, [0,0,0,0,0,0])` when the list is too short; otherwise the landmarks
are indexed and `math.hypot` (the Euclidean distance) is returned together
with `[x1, y1, x2, y2, cx, cy]`.  Out-of-bounds indexing past the guard
would be a raised `IndexError`, modelled as `none`. -/
noncomputable def find_distance (p1 p2 : ℕ) (lst : List (ℕ × ℤ × ℤ)) :
    Option (ℝ × List ℤ) :=
  if lst.length < max p1 p2 + 1 then some (0, [0, 0, 0, 0, 0, 0])
  else
    match lst[p1]?, lst[p2]? with
    | some e1, some e2 =>
        some (Real.sqrt (((e2.2.1 - e1.2.1) ^ 2 + (e2.2.2 - e1.2.2) ^ 2 : ℤ) : ℝ),
          [e1.2.1, e1.2.2, e2.2.1, e2.2.2,
            Int.fdiv (e1.2.1 + e2.2.1) 2, Int.fdiv (e1.2.2 + e2.2.2) 2])
    | _, _ => none

/-- Claim C8.  `find_distance` never fails (never `none`, i.e. never raises):
for a list shorter than `max p1 p2 + 1` it returns the sentinel distance `0`
(below the 40 px pinch threshold, hence "treated as pinched"); otherwise the
guard guarantees both indexings succeed and it returns the Euclidean pixel
distance between landmarks `p1` and `p2`. -/
theorem C8_find_distance_sentinel (p1 p2 : ℕ) (lst : List (ℕ × ℤ × ℤ)) :
    (lst.length < max p1 p2 + 1 →
        find_distance p1 p2 lst = some (0, [0, 0, 0, 0, 0, 0])) ∧
      (max p1 p2 + 1 ≤ lst.length → ∃ e1 e2,
        lst[p1]? = some e1 ∧ lst[p2]? = some e2 ∧
        find_distance p1 p2 lst =
          some (Real.sqrt (((e2.2.1 - e1.2.1) ^ 2 + (e2.2.2 - e1.2.2) ^ 2 : ℤ) : ℝ),
            [e1.2.1, e1.2.2, e2.2.1, e2.2.2,
              Int.fdiv (e1.2.1 + e2.2.1) 2, Int.fdiv (e1.2.2 + e2.2.2) 2])) ∧
      find_distance p1 p2 lst ≠ none := by
  by_cases hlen : lst.length < max p1 p2 + 1
  · refine ⟨fun _ => by simp [find_distance, hlen], fun h => absurd h (by omega), ?_⟩
    simp [find_distance, hlen]
  · have hp1 : p1 < lst.length := by omega
    have hp2 : p2 < lst.length := by omega
    have h1 : lst[p1]? = some lst[p1] := List.getElem?_eq_getElem hp1
    have h2 : lst[p2]? = some lst[p2] := List.getElem?_eq_getElem hp2
    refine ⟨fun h => absurd h hlen, fun _ => ⟨lst[p1], lst[p2], h1, h2, ?_⟩, ?_⟩
    · simp [find_distance, hlen, h1, h2]
    · simp [find_distance, hlen, h1, h2]

/-- Concrete landmark list with nine entries (so that thumb tip 4 and index
tip 8 are both present). -/
def lmList9 : List (ℕ × ℤ × ℤ) :=
  [(0, 3, 4), (1, 0, 0), (2, 0, 0), (3, 0, 0), (4, 10, 20),
   (5, 0, 0), (6, 0, 0), (7, 0, 0), (8, 40, 60)]

/-- Witness for `C8_find_distance_sentinel`: the empty list yields the
sentinel for the thumb-index pinch `(4, 8)`, and a nine-entry list yields
the Euclidean branch. -/
theorem C8_find_distance_sentinel_witness :
    find_distance 4 8 [] = some (0, [0, 0, 0, 0, 0, 0]) ∧ ∃ e1 e2,
      lmList9[4]? = some e1 ∧ lmList9[8]? = some e2 ∧
      find_distance 4 8 lmList9 =
        some (Real.sqrt (((e2.2.1 - e1.2.1) ^ 2 + (e2.2.2 - e1.2.2) ^ 2 : ℤ) : ℝ),
          [e1.2.1, e1.2.2, e2.2.1, e2.2.2,
            Int.fdiv (e1.2.1 + e2.2.1) 2, Int.fdiv (e1.2.2 + e2.2.2) 2]) :=
  ⟨(C8_find_distance_sentinel 4 8 []).1 (by simp),
   (C8_find_distance_sentinel 4 8 lmList9).2.1 (by simp [lmList9])⟩

/-- A pinch test `math.hypot(dx, dy) < 40` is equivalent to the squared
comparison `dx^2 + dy^2 < 1600`; the gesture-handler embedding below uses
the squared form so that it stays executable. -/
theorem sqrt_lt_forty_iff (d : ℤ) (hd : 0 ≤ d) :
    (Real.sqrt (d : ℝ) < 40 ↔ d < 1600) := by
  rw [show (40 : ℝ) = Real.sqrt 1600 by
        rw [show (1600 : ℝ) = 40 ^ 2 by norm_num, Real.sqrt_sq (by norm_num)]]
  rw [Real.sqrt_lt_sqrt_iff (by exact_mod_cast hd)]
  exact_mod_cast Iff.rfl

/-- FingerVector `[thumb, index, middle, ring, pinky]` as delivered by
`HandDetector.fingers_up` (entries 0/1; kept as naturals because the code
tests `sum(fingers[:3]) == 0` as well as `fingers[i] == 1`). -/
structure Fingers where
  thumb : ℕ
  index : ℕ
  middle : ℕ
  ring : ℕ
  pinky : ℕ
deriving DecidableEq, Repr

/-- Source `gesture_handler.py` line 83:
`fingers[4] == 1 and fingers[3] == 1 and sum(fingers[:3]) == 0`. -/
def scrollGesture (f : Fingers) : Bool :=
  (f.pinky == 1) && (f.ring == 1) && (f.thumb + f.index + f.middle == 0)

/-- One detected hand: the 21 landmark pixel positions indexed by
landmark id (the detector delivers either no hand or all 21). -/
def Hand : Type := Fin 21 → ℤ × ℤ

/-- Squared pixel distance between two landmarks; the code compares
`math.hypot(dx, dy) < PINCH_DISTANCE_THRESHOLD`, which by
`sqrt_lt_forty_iff` is equivalent to `distSq < 1600 = 40^2`. -/
def distSq (lm : Hand) (a b : Fin 21) : ℤ :=
  ((lm b).1 - (lm a).1) ^ 2 + ((lm b).2 - (lm a).2) ^ 2

/-- One frame of input to `GestureHandler.process_frame`: the wall-clock
timestamp, the detected hand (`none` when `lm_list` is empty) and the
finger vector. -/
structure FrameInput where
  t : ℚ
  hand : Option Hand
  fingers : Fingers

/-- State of `GestureHandler`: its mutable fields (`gesture_handler.py` lines 36-45)
together with its owned `ScrollHandler` state. -/
structure GHState where
  ploc_x : ℚ
  ploc_y : ℚ
  cloc_x : ℚ
  cloc_y : ℚ
  drag_mode : Bool
  drag_active : Bool
  drag_start_time : ℚ
  scroll : ScrollState
deriving DecidableEq, Repr

/-- Initial state, `GestureHandler.__init__`. -/
def initGHState : GHState := ⟨0, 0, 0, 0, false, false, 0, initScrollState⟩

/-- Source `gesture_handler.py` lines 160-175, `GestureHandler._handle_left_click`
(called only when not dragging): index and middle up and their tips within
the pinch threshold emits one click.  With a full 21-landmark hand the
`find_distance` guard never fires, so the distance is the Euclidean one,
compared in squared form here. -/
def handle_left_click (f : Fingers) (lm : Hand) : List Command :=
  if f.index == 1 && f.middle == 1 then
    if distSq lm 8 12 < 1600 then [Command.click] else []
  else []

/-- Source `gesture_handler.py` lines 177-192, `GestureHandler._handle_right_click`:
thumb and index up, middle down, thumb-tip to index-tip within the pinch
threshold emits one right click. -/
def handle_right_click (f : Fingers) (lm : Hand) : List Command :=
  if f.thumb == 1 && f.index == 1 && f.middle == 0 then
    if distSq lm 4 8 < 1600 then [Command.rightClick] else []
  else []

/-- Source `gesture_handler.py` lines 110-158, `GestureHandler._handle_movement`:
map and smooth the index-fingertip position, emit the move, then run the
drag state machine on the thumb-index pinch.  Note that the pinch-release
and thumb-down branches (lines 145-156) reset `drag_mode` ONLY when
`drag_active` is already true. -/
def handle_movement (wscr hscr : ℚ) (s : GHState) (t x1 y1 : ℚ)
    (f : Fingers) (lm : Hand) : GHState × List Command :=
  let xm := x_mapped wscr x1
  let ym := y_mapped hscr y1
  let cx := s.ploc_x + (xm - s.ploc_x) / SMOOTHENING
  let cy := s.ploc_y + (ym - s.ploc_y) / SMOOTHENING
  let s1 : GHState := { s with cloc_x := cx, cloc_y := cy, ploc_x := cx, ploc_y := cy }
  let cmds := [Command.move cx cy]
  if f.thumb == 1 then
    if distSq lm 4 8 < 1600 then
      if ¬ s1.drag_mode then
        ({ s1 with drag_start_time := t, drag_mode := true }, cmds)
      else if DRAG_CLICK_THRESHOLD < t - s1.drag_start_time ∧ s1.drag_active = false then
        ({ s1 with drag_active := true }, cmds ++ [Command.toggleDrag true])
      else (s1, cmds)
    else
      if s1.drag_active then
        ({ s1 with drag_active := false, drag_mode := false },
          cmds ++ [Command.toggleDrag false])
      else (s1, cmds)
  else
    if s1.drag_active then
      ({ s1 with drag_active := false, drag_mode := false },
        cmds ++ [Command.toggleDrag false])
    else (s1, cmds)

/-- Source `gesture_handler.py` lines 50-108, `GestureHandler.process_frame`
(drawing dropped): no hand forces drag cleanup and nothing else; the scroll
gesture (ring+pinky only) has priority and also forces drag cleanup; else
index-up runs movement+drag, index-down forces drag cleanup, and when not
drag-active the click handlers run. -/
def process_frame (wscr hscr : ℚ) (s : GHState) (fr : FrameInput) :
    GHState × List Command :=
  match fr.hand with
  | none =>
      if s.drag_active then
        ({ s with drag_active := false, drag_mode := false }, [Command.toggleDrag false])
      else (s, [])
  | some lm =>
      if scrollGesture fr.fingers then
        let p := handle_scroll s.scroll fr.t ((lm 0).2 : ℚ)
        let s1 : GHState := { s with scroll := p.1 }
        if s1.drag_active then
          ({ s1 with drag_active := false, drag_mode := false },
            p.2 ++ [Command.toggleDrag false])
        else (s1, p.2)
      else
        let s1 : GHState := { s with scroll := deactivate_scroll_mode s.scroll }
        let q : GHState × List Command :=
          if fr.fingers.index == 1 then
            handle_movement wscr hscr s1 fr.t ((lm 8).1 : ℚ) ((lm 8).2 : ℚ) fr.fingers lm
          else if s1.drag_active then
            ({ s1 with drag_active := false, drag_mode := false },
              [Command.toggleDrag false])
          else (s1, [])
        if ¬ q.1.drag_active then
          (q.1, q.2 ++ handle_left_click fr.fingers lm ++ handle_right_click fr.fingers lm)
        else q

/-- Fold `process_frame` over a frame sequence, concatenating the emitted
commands in order. -/
def processTrace (wscr hscr : ℚ) : GHState → List FrameInput → GHState × List Command
  | s, [] => (s, [])
  | s, fr :: rest =>
      let p := process_frame wscr hscr s fr
      let q := processTrace wscr hscr p.1 rest
      (q.1, p.2 ++ q.2)

/-- Claim C9.  An empty landmark list (no hand) while a drag is confirmed
makes `process_frame` emit exactly the end-drag command `toggle_drag(False)`
and nothing else in that frame, clearing both drag flags. -/
theorem C9_hand_lost_ends_drag (wscr hscr t : ℚ) (s : GHState) (f : Fingers)
    (h : s.drag_active = true) :
    process_frame wscr hscr s ⟨t, none, f⟩ =
      ({ s with drag_active := false, drag_mode := false },
        [Command.toggleDrag false]) := by
  simp [process_frame, h]

/-- Witness for `C9_hand_lost_ends_drag` at a concrete dragging state. -/
theorem C9_hand_lost_ends_drag_witness :
    process_frame 1920 1080 ⟨0, 0, 0, 0, true, true, 0, initScrollState⟩
        ⟨5, none, ⟨0, 0, 0, 0, 0⟩⟩ =
      (⟨0, 0, 0, 0, false, false, 0, initScrollState⟩, [Command.toggleDrag false]) :=
  C9_hand_lost_ends_drag 1920 1080 5 ⟨0, 0, 0, 0, true, true, 0, initScrollState⟩
    ⟨0, 0, 0, 0, 0⟩ rfl

/-- Claim C6.  In move mode with finger vector `[1,1,0,0,0]` and the
thumb-index pinch engaged (squared distance below `40^2`), while the drag
is not yet confirmed — `drag_active` false before the frame and the hold
threshold not yet elapsed, so it stays false — the arbiter both advances
the drag-hold state (`drag_mode` becomes/stays true, the timer starting at
the current frame when the pinch is new and keeping its start otherwise)
and emits a right-click command in that same frame; no begin-drag is
emitted. -/
theorem C6_right_click_during_drag_hold (wscr hscr : ℚ) (s : GHState)
    (fr : FrameInput) (lm : Hand)
    (hh : fr.hand = some lm) (hf : fr.fingers = ⟨1, 1, 0, 0, 0⟩)
    (hd : distSq lm 4 8 < 1600) (ha : s.drag_active = false)
    (hm : s.drag_mode = true → fr.t - s.drag_start_time ≤ DRAG_CLICK_THRESHOLD) :
    Command.rightClick ∈ (process_frame wscr hscr s fr).2 ∧
      (process_frame wscr hscr s fr).1.drag_mode = true ∧
      (process_frame wscr hscr s fr).1.drag_active = false ∧
      (s.drag_mode = false → (process_frame wscr hscr s fr).1.drag_start_time = fr.t) ∧
      (s.drag_mode = true → (process_frame wscr hscr s fr).1.drag_start_time =
        s.drag_start_time) ∧
      Command.toggleDrag true ∉ (process_frame wscr hscr s fr).2 := by
  by_cases hdm : s.drag_mode
  · have hcond : ¬ DRAG_CLICK_THRESHOLD < fr.t - s.drag_start_time :=
      not_lt.mpr (hm hdm)
    simp [process_frame, hh, hf, scrollGesture, handle_movement, hd, hdm, hcond,
      handle_left_click, handle_right_click, deactivate_scroll_mode, ha]
  · simp only [Bool.not_eq_true] at hdm
    simp [process_frame, hh, hf, scrollGesture, handle_movement, hd, hdm,
      handle_left_click, handle_right_click, deactivate_scroll_mode, ha]

/-- Concrete hand with the thumb-index pinch engaged
(thumb tip at (100,100), index tip at (110,100): squared distance 100). -/
def handPinch : Hand := fun i =>
  if i = 4 then (100, 100) else if i = 8 then (110, 100) else (100, 100)

/-- Concrete hand with the pinch released
(thumb tip at (100,100), index tip at (200,100): squared distance 10000). -/
def handApart : Hand := fun i =>
  if i = 8 then (200, 100) else (100, 100)

unseal Rat.mul Rat.add Rat.sub Rat.inv in
/-- Witness for `C6_right_click_during_drag_hold` at the initial state and a
concrete pinched frame. -/
theorem C6_right_click_during_drag_hold_witness :
    Command.rightClick ∈
        (process_frame 1920 1080 initGHState ⟨0, some handPinch, ⟨1, 1, 0, 0, 0⟩⟩).2 ∧
      (process_frame 1920 1080 initGHState
        ⟨0, some handPinch, ⟨1, 1, 0, 0, 0⟩⟩).1.drag_mode = true :=
  ⟨(C6_right_click_during_drag_hold 1920 1080 initGHState
      ⟨0, some handPinch, ⟨1, 1, 0, 0, 0⟩⟩ handPinch rfl rfl (by decide) rfl
      (by decide)).1,
   (C6_right_click_during_drag_hold 1920 1080 initGHState
      ⟨0, some handPinch, ⟨1, 1, 0, 0, 0⟩⟩ handPinch rfl rfl (by decide) rfl
      (by decide)).2.1⟩

/-- The drag commands (begin = `true`, end = `false`) within a command list. -/
def dragCmds (l : List Command) : List Bool :=
  l.filterMap fun c => match c with
    | Command.toggleDrag b => some b
    | _ => none

/-- Booleans alternate starting with `b`. -/
def altFrom : Bool → List Bool → Bool
  | _, [] => true
  | b, x :: xs => (x == b) && altFrom (!b) xs

theorem dragCmds_append (a b : List Command) :
    dragCmds (a ++ b) = dragCmds a ++ dragCmds b :=
  List.filterMap_append a b _

theorem dragCmds_handle_left_click (f : Fingers) (lm : Hand) :
    dragCmds (handle_left_click f lm) = [] := by
  unfold handle_left_click
  split
  · split <;> rfl
  · rfl

theorem dragCmds_handle_right_click (f : Fingers) (lm : Hand) :
    dragCmds (handle_right_click f lm) = [] := by
  unfold handle_right_click
  split
  · split <;> rfl
  · rfl

theorem dragCmds_handle_scroll (s : ScrollState) (t y : ℚ) :
    dragCmds (handle_scroll s t y).2 = [] := by
  simp only [handle_scroll]
  split <;> split <;> rfl

/-- Evaluation helper for `dragCmds`. -/
theorem dragCmds_nil : dragCmds [] = [] := rfl

theorem dragCmds_toggle (b : Bool) : dragCmds [Command.toggleDrag b] = [b] := rfl

theorem dragCmds_move (x y : ℚ) : dragCmds [Command.move x y] = [] := rfl

theorem dragCmds_move_toggle (x y : ℚ) (b : Bool) :
    dragCmds [Command.move x y, Command.toggleDrag b] = [b] := rfl

theorem dragCmds_cons_move (x y : ℚ) (l : List Command) :
    dragCmds (Command.move x y :: l) = dragCmds l := rfl

theorem dragCmds_cons_toggle (b : Bool) (l : List Command) :
    dragCmds (Command.toggleDrag b :: l) = b :: dragCmds l := rfl

/-- Per-frame drag protocol: a frame either emits no drag command and
leaves `drag_active` unchanged, or emits exactly one drag command whose
direction is the negation of the previous `drag_active`, which becomes the
new `drag_active`. -/
theorem step_drag (wscr hscr : ℚ) (s : GHState) (fr : FrameInput) :
    (dragCmds (process_frame wscr hscr s fr).2 = [] ∧
        (process_frame wscr hscr s fr).1.drag_active = s.drag_active) ∨
      (dragCmds (process_frame wscr hscr s fr).2 = [!s.drag_active] ∧
        (process_frame wscr hscr s fr).1.drag_active = !s.drag_active) := by
  unfold process_frame
  match hh : fr.hand with
  | none =>
      by_cases ha : s.drag_active <;>
        simp [ha, dragCmds_nil, dragCmds_toggle]
  | some lm =>
      by_cases hsg : scrollGesture fr.fingers
      · by_cases ha : s.drag_active <;>
          simp [hsg, ha, dragCmds_append, dragCmds_handle_scroll,
            dragCmds_nil, dragCmds_toggle]
      · simp only [hsg, Bool.false_eq_true, if_false]
        by_cases hidx : fr.fingers.index == 1
        · simp only [hidx, if_true]
          unfold handle_movement
          by_cases hth : fr.fingers.thumb == 1
          · simp only [hth, if_true]
            by_cases hdq : distSq lm 4 8 < 1600
            · simp only [hdq, if_true]
              by_cases hdm : s.drag_mode
              · simp only [hdm, not_true, if_neg, if_false]
                by_cases ha : s.drag_active
                · left
                  simp [ha, dragCmds_append, dragCmds_nil, dragCmds_move, dragCmds_cons_move, dragCmds_cons_toggle,
                    dragCmds_handle_left_click, dragCmds_handle_right_click]
                · by_cases hlt : DRAG_CLICK_THRESHOLD < fr.t - s.drag_start_time
                  · right
                    simp [ha, hlt, dragCmds_append, dragCmds_nil, dragCmds_move_toggle, dragCmds_cons_move, dragCmds_cons_toggle,
                      dragCmds_handle_left_click, dragCmds_handle_right_click]
                  · left
                    simp [ha, hlt, dragCmds_append, dragCmds_nil, dragCmds_move, dragCmds_cons_move, dragCmds_cons_toggle,
                      dragCmds_handle_left_click, dragCmds_handle_right_click]
              · left
                by_cases ha : s.drag_active <;>
                  simp [hdm, ha, dragCmds_append, dragCmds_nil, dragCmds_move, dragCmds_cons_move, dragCmds_cons_toggle,
                    dragCmds_handle_left_click, dragCmds_handle_right_click]
            · by_cases ha : s.drag_active
              · right
                simp [hdq, ha, dragCmds_append, dragCmds_nil, dragCmds_move_toggle, dragCmds_cons_move, dragCmds_cons_toggle,
                  dragCmds_handle_left_click, dragCmds_handle_right_click]
              · left
                simp [hdq, ha, dragCmds_append, dragCmds_nil, dragCmds_move, dragCmds_cons_move, dragCmds_cons_toggle,
                  dragCmds_handle_left_click, dragCmds_handle_right_click]
          · by_cases ha : s.drag_active
            · right
              simp [hth, ha, dragCmds_append, dragCmds_nil, dragCmds_move_toggle, dragCmds_cons_move, dragCmds_cons_toggle,
                dragCmds_handle_left_click, dragCmds_handle_right_click]
            · left
              simp [hth, ha, dragCmds_append, dragCmds_nil, dragCmds_move, dragCmds_cons_move, dragCmds_cons_toggle,
                dragCmds_handle_left_click, dragCmds_handle_right_click]
        · by_cases ha : s.drag_active
          · right
            simp [hidx, ha, dragCmds_append, dragCmds_nil, dragCmds_toggle, dragCmds_cons_move, dragCmds_cons_toggle,
              dragCmds_handle_left_click, dragCmds_handle_right_click]
          · left
            simp [hidx, ha, dragCmds_append, dragCmds_nil, dragCmds_toggle, dragCmds_cons_move, dragCmds_cons_toggle,
              dragCmds_handle_left_click, dragCmds_handle_right_click]

/-- Drag commands of a whole trace alternate, starting with the negation of
the initial `drag_active`. -/
theorem trace_alt (wscr hscr : ℚ) (fs : List FrameInput) :
    ∀ s : GHState,
      altFrom (!s.drag_active) (dragCmds (processTrace wscr hscr s fs).2) = true := by
  induction fs with
  | nil => intro s; rfl
  | cons fr rest ih =>
      intro s
      simp only [processTrace]
      rw [dragCmds_append]
      rcases step_drag wscr hscr s fr with ⟨h1, h2⟩ | ⟨h1, h2⟩
      · rw [h1, List.nil_append, ← h2]
        exact ih _
      · rw [h1, List.singleton_append]
        have hrest := ih (process_frame wscr hscr s fr).1
        rw [h2, Bool.not_not] at hrest
        simp only [altFrom, beq_self_eq_true, Bool.true_and, Bool.not_not]
        exact hrest

theorem true_mem_dragCmds (l : List Command)
    (h : Command.toggleDrag true ∈ l) : true ∈ dragCmds l :=
  List.mem_filterMap.mpr ⟨_, h, rfl⟩

/-- A begin-drag command is emitted only from the confirm branch of the
drag state machine: previous state `pinching` (`drag_mode` set,
`drag_active` clear), hold threshold strictly exceeded relative to the
recorded start time, and the pinch engaged in the current (move-mode)
frame. -/
theorem begin_drag_condition (wscr hscr : ℚ) (s : GHState) (fr : FrameInput)
    (hb : Command.toggleDrag true ∈ (process_frame wscr hscr s fr).2) :
    s.drag_mode = true ∧ s.drag_active = false ∧
      DRAG_CLICK_THRESHOLD < fr.t - s.drag_start_time ∧
      ∃ lm, fr.hand = some lm ∧ scrollGesture fr.fingers = false ∧
        fr.fingers.index = 1 ∧ fr.fingers.thumb = 1 ∧ distSq lm 4 8 < 1600 := by
  have hmem := true_mem_dragCmds _ hb
  unfold process_frame at hmem
  match hh : fr.hand with
  | none =>
      rw [hh] at hmem
      by_cases ha : s.drag_active <;>
        simp [ha, dragCmds_nil, dragCmds_toggle] at hmem
  | some lm =>
      rw [hh] at hmem
      by_cases hsg : scrollGesture fr.fingers
      · by_cases ha : s.drag_active <;>
          simp [hsg, ha, dragCmds_append, dragCmds_handle_scroll,
            dragCmds_nil, dragCmds_toggle] at hmem
      · simp only [hsg, Bool.false_eq_true, if_false] at hmem
        by_cases hidx : fr.fingers.index == 1
        · simp only [hidx, if_true] at hmem
          unfold handle_movement at hmem
          by_cases hth : fr.fingers.thumb == 1
          · simp only [hth, if_true] at hmem
            by_cases hdq : distSq lm 4 8 < 1600
            · simp only [hdq, if_true] at hmem
              by_cases hdm : s.drag_mode
              · simp only [hdm, not_true, if_neg, if_false] at hmem
                by_cases ha : s.drag_active
                · simp [ha, dragCmds_append, dragCmds_nil, dragCmds_move,
                    dragCmds_cons_move, dragCmds_cons_toggle,
                    dragCmds_handle_left_click, dragCmds_handle_right_click] at hmem
                · by_cases hlt : DRAG_CLICK_THRESHOLD < fr.t - s.drag_start_time
                  · exact ⟨hdm, by simpa using ha, hlt, lm, rfl, by simpa using hsg,
                      by simpa using hidx, by simpa using hth, hdq⟩
                  · simp [ha, hlt, dragCmds_append, dragCmds_nil, dragCmds_move,
                      dragCmds_cons_move, dragCmds_cons_toggle,
                      dragCmds_handle_left_click, dragCmds_handle_right_click] at hmem
              · by_cases ha : s.drag_active <;>
                  simp [hdm, ha, dragCmds_append, dragCmds_nil, dragCmds_move,
                    dragCmds_cons_move, dragCmds_cons_toggle,
                    dragCmds_handle_left_click, dragCmds_handle_right_click] at hmem
            · by_cases ha : s.drag_active <;>
                simp [hdq, ha, dragCmds_append, dragCmds_nil, dragCmds_move,
                  dragCmds_move_toggle, dragCmds_cons_move, dragCmds_cons_toggle,
                  dragCmds_handle_left_click, dragCmds_handle_right_click] at hmem
          · by_cases ha : s.drag_active <;>
              simp [hth, ha, dragCmds_append, dragCmds_nil, dragCmds_move,
                dragCmds_move_toggle, dragCmds_cons_move, dragCmds_cons_toggle,
                dragCmds_handle_left_click, dragCmds_handle_right_click] at hmem
        · by_cases ha : s.drag_active <;>
            simp [hidx, ha, dragCmds_append, dragCmds_nil, dragCmds_toggle,
              dragCmds_cons_move, dragCmds_cons_toggle,
              dragCmds_handle_left_click, dragCmds_handle_right_click] at hmem

/-- Counterexample frames: pinch engaged at `t = 0`, released at `t = 0.2`,
re-engaged at `t = 0.4` (finger vector `[1,1,0,0,0]` throughout). -/
def frC4a : FrameInput := ⟨0, some handPinch, ⟨1, 1, 0, 0, 0⟩⟩

def frC4b : FrameInput := ⟨1/5, some handApart, ⟨1, 1, 0, 0, 0⟩⟩

def frC4c : FrameInput := ⟨2/5, some handPinch, ⟨1, 1, 0, 0, 0⟩⟩

unseal Rat.mul Rat.add Rat.sub Rat.inv in
/-- Counterexample to Claim C4 as stated: over the three frames
pinch(0 s) / release(0.2 s) / pinch(0.4 s), the code emits a begin-drag on
the third frame although the pinch was released on the second frame and had
been re-engaged for only 0 s (the release was 0.2 s, less than 0.3 s, before
the emission); the release
frame did NOT reset the hold timer (`drag_mode` survives it), because the
reset on pinch release is guarded by `drag_active` (gesture_handler.py
lines 145-150). -/
theorem C4_counterexample :
    dragCmds (processTrace 1920 1080 initGHState [frC4a, frC4b, frC4c]).2 = [true] ∧
      ¬ distSq handApart 4 8 < 1600 ∧
      frC4c.t - frC4b.t < DRAG_CLICK_THRESHOLD ∧
      (processTrace 1920 1080 initGHState [frC4a, frC4b]).1.drag_mode = true := by
  refine ⟨by decide, by decide, by decide, by decide⟩

/-- Claim C4, amended to what the code does.  A begin-drag is emitted only
when, before the frame, the machine is in the pinching state with the drag
not yet confirmed and strictly more than 0.3 s elapsed since the recorded
`drag_start_time` — the time the pinch first engaged after `drag_mode` was
last cleared, NOT the start of the current uninterrupted pinch: pinch
release, thumb-down, hand-loss or scroll frames reset `drag_mode` (and with
it the timer) only when the drag is already confirmed — and only in a
move-mode frame whose thumb-index pinch is engaged.  The begin/end pairing
does hold: over any frame sequence from the initial state, the emitted drag
commands strictly alternate begin, end, begin, ... — never two begins
without an intervening end. -/
theorem C4_amended_drag_protocol :
    (∀ (wscr hscr : ℚ) (s : GHState) (fr : FrameInput),
        Command.toggleDrag true ∈ (process_frame wscr hscr s fr).2 →
        s.drag_mode = true ∧ s.drag_active = false ∧
          DRAG_CLICK_THRESHOLD < fr.t - s.drag_start_time ∧
          ∃ lm, fr.hand = some lm ∧ scrollGesture fr.fingers = false ∧
            fr.fingers.index = 1 ∧ fr.fingers.thumb = 1 ∧ distSq lm 4 8 < 1600) ∧
      ∀ (wscr hscr : ℚ) (fs : List FrameInput),
        altFrom true (dragCmds (processTrace wscr hscr initGHState fs).2) = true := by
  refine ⟨fun wscr hscr s fr hb => begin_drag_condition wscr hscr s fr hb, ?_⟩
  intro wscr hscr fs
  simpa [initGHState] using trace_alt wscr hscr fs initGHState

unseal Rat.mul Rat.add Rat.sub Rat.inv in
/-- Witness for `C4_amended_drag_protocol`: the begin-condition at the
concrete confirming frame of the counterexample trace, and alternation over
that trace. -/
theorem C4_amended_drag_protocol_witness :
    ((processTrace 1920 1080 initGHState [frC4a, frC4b]).1.drag_mode = true ∧
        (processTrace 1920 1080 initGHState [frC4a, frC4b]).1.drag_active = false ∧
        DRAG_CLICK_THRESHOLD <
          frC4c.t - (processTrace 1920 1080 initGHState [frC4a, frC4b]).1.drag_start_time ∧
        ∃ lm, frC4c.hand = some lm ∧ scrollGesture frC4c.fingers = false ∧
          frC4c.fingers.index = 1 ∧ frC4c.fingers.thumb = 1 ∧ distSq lm 4 8 < 1600) ∧
      altFrom true
        (dragCmds (processTrace 1920 1080 initGHState [frC4a, frC4b, frC4c]).2) = true :=
  ⟨C4_amended_drag_protocol.1 1920 1080
      (processTrace 1920 1080 initGHState [frC4a, frC4b]).1 frC4c (by decide),
   C4_amended_drag_protocol.2 1920 1080 [frC4a, frC4b, frC4c]⟩

/-- Number of scroll commands in a command list. -/
def countScroll (l : List Command) : ℕ :=
  (l.filter fun c => match c with
    | Command.scroll _ => true
    | _ => false).length

theorem countScroll_append (a b : List Command) :
    countScroll (a ++ b) = countScroll a + countScroll b := by
  simp [countScroll, List.filter_append]

theorem countScroll_nil : countScroll [] = 0 := rfl

theorem countScroll_toggle (b : Bool) : countScroll [Command.toggleDrag b] = 0 := rfl

theorem countScroll_scroll_one (n : ℤ) : countScroll [Command.scroll n] = 1 := rfl

theorem countScroll_scroll_toggle (n : ℤ) (b : Bool) :
    countScroll [Command.scroll n, Command.toggleDrag b] = 1 := rfl

theorem countScroll_cons_toggle (b : Bool) (l : List Command) :
    countScroll (Command.toggleDrag b :: l) = countScroll l := rfl

theorem countScroll_handle_movement (wscr hscr t x1 y1 : ℚ) (s : GHState)
    (f : Fingers) (lm : Hand) :
    countScroll (handle_movement wscr hscr s t x1 y1 f lm).2 = 0 := by
  simp only [handle_movement]
  repeat' split
  all_goals rfl

theorem countScroll_handle_left_click (f : Fingers) (lm : Hand) :
    countScroll (handle_left_click f lm) = 0 := by
  unfold handle_left_click
  split
  · split <;> rfl
  · rfl

theorem countScroll_handle_right_click (f : Fingers) (lm : Hand) :
    countScroll (handle_right_click f lm) = 0 := by
  unfold handle_right_click
  split
  · split <;> rfl
  · rfl

/-- Lemma: `handle_movement` never touches the scroll state. -/
theorem handle_movement_scroll (wscr hscr t x1 y1 : ℚ) (s : GHState)
    (f : Fingers) (lm : Hand) :
    (handle_movement wscr hscr s t x1 y1 f lm).1.scroll = s.scroll := by
  simp only [handle_movement]
  repeat' split
  all_goals rfl

/-- Lemma: `_handle_scroll` either emits nothing and leaves the last-scroll
timestamp unchanged, or emits exactly one scroll command, stamps the
current time, and the gate held: strictly more than `SCROLL_DELAY` elapsed
since the last emission and the RAW speed magnitude strictly exceeds 0.5. -/
theorem handle_scroll_spec (s : ScrollState) (t y : ℚ) :
    ((handle_scroll s t y).2 = [] ∧
        (handle_scroll s t y).1.last_scroll_time = s.last_scroll_time) ∨
      ((∃ n, (handle_scroll s t y).2 = [Command.scroll n]) ∧
        (handle_scroll s t y).1.last_scroll_time = t ∧
        SCROLL_DELAY < t - s.last_scroll_time ∧
        1/2 < |get_progressive_speed y|) := by
  simp only [handle_scroll]
  split
  · rename_i hact
    split
    · rename_i hgate
      right
      rw [should_scroll, Bool.and_eq_true, decide_eq_true_iff, decide_eq_true_iff] at hgate
      exact ⟨⟨_, rfl⟩, rfl, hgate.1, hgate.2⟩
    · left
      exact ⟨rfl, rfl⟩
  · rename_i hact
    split
    · rename_i hgate
      right
      rw [should_scroll, Bool.and_eq_true, decide_eq_true_iff, decide_eq_true_iff] at hgate
      exact ⟨⟨_, rfl⟩, rfl, hgate.1, hgate.2⟩
    · left
      exact ⟨rfl, rfl⟩

/-- Per-frame scroll emission: either no scroll command and unchanged
last-scroll timestamp, or exactly one scroll command with the timestamp
stamped to the frame time, emitted only past the minimum interval and only
with raw wrist speed magnitude above 0.5. -/
theorem process_frame_scroll_spec (wscr hscr : ℚ) (s : GHState) (fr : FrameInput) :
    (countScroll (process_frame wscr hscr s fr).2 = 0 ∧
        (process_frame wscr hscr s fr).1.scroll.last_scroll_time =
          s.scroll.last_scroll_time) ∨
      (∃ lm, fr.hand = some lm ∧
        countScroll (process_frame wscr hscr s fr).2 = 1 ∧
        (process_frame wscr hscr s fr).1.scroll.last_scroll_time = fr.t ∧
        SCROLL_DELAY < fr.t - s.scroll.last_scroll_time ∧
        1/2 < |get_progressive_speed ((lm 0).2 : ℚ)|) := by
  unfold process_frame
  match hh : fr.hand with
  | none =>
      left
      by_cases ha : s.drag_active <;> simp [ha, countScroll_nil, countScroll_toggle]
  | some lm =>
      by_cases hsg : scrollGesture fr.fingers
      · rcases handle_scroll_spec s.scroll fr.t ((lm 0).2 : ℚ) with
          ⟨h1, h2⟩ | ⟨⟨n, h1⟩, h2, h3, h4⟩
        · left
          by_cases ha : s.drag_active <;>
            simp [hsg, ha, h1, h2, countScroll_append, countScroll_nil,
              countScroll_toggle]
        · right
          refine ⟨lm, rfl, ?_, ?_, h3, h4⟩
          · by_cases ha : s.drag_active <;>
              simp [hsg, ha, h1, countScroll_append, countScroll_scroll_one,
                countScroll_scroll_toggle, countScroll_toggle]
          · by_cases ha : s.drag_active <;> simp [hsg, ha, h2]
      · left
        simp only [hsg, Bool.false_eq_true, if_false]
        by_cases hidx : fr.fingers.index == 1
        · simp only [hidx, if_true]
          split
          · refine ⟨?_, ?_⟩
            · rw [countScroll_append, countScroll_append,
                countScroll_handle_movement, countScroll_handle_left_click,
                countScroll_handle_right_click]
            · rw [handle_movement_scroll]
              rfl
          · refine ⟨countScroll_handle_movement wscr hscr fr.t _ _ _ fr.fingers lm, ?_⟩
            rw [handle_movement_scroll]
            rfl
        · by_cases ha : s.drag_active <;>
            simp [hsg, hidx, ha, countScroll_append, countScroll_nil,
              countScroll_toggle, countScroll_cons_toggle,
              countScroll_handle_left_click,
              countScroll_handle_right_click, deactivate_scroll_mode]

theorem scroll_mem_countScroll_pos (l : List Command) (n : ℤ)
    (h : Command.scroll n ∈ l) : 0 < countScroll l := by
  have : Command.scroll n ∈ l.filter fun c => match c with
      | Command.scroll _ => true
      | _ => false := List.mem_filter.mpr ⟨h, rfl⟩
  exact List.length_pos.mpr (List.ne_nil_of_mem this)

/-- Concrete hand whose wrist (landmark 0) sits at height `y`. -/
def handWrist (y : ℤ) : Hand := fun _ => (320, y)

/-- Counterexample frames for the scroll gate: scroll gesture throughout,
wrist at `y = 191` (raw speed just below `-5`) at `t = 1` and `t = 1.1`,
then wrist at `y = 0` (raw speed `+10`, the buggy top-edge value) at
`t = 1.2`. -/
def frC5a : FrameInput := ⟨1, some (handWrist 191), ⟨0, 0, 0, 1, 1⟩⟩

def frC5b : FrameInput := ⟨11/10, some (handWrist 191), ⟨0, 0, 0, 1, 1⟩⟩

def frC5c : FrameInput := ⟨6/5, some (handWrist 0), ⟨0, 0, 0, 1, 1⟩⟩

/-- A frame 0.01 s after `frC5a` — closer than the 0.02 s minimum interval. -/
def frC5d : FrameInput := ⟨101/100, some (handWrist 191), ⟨0, 0, 0, 1, 1⟩⟩

unseal Rat.mul Rat.add Rat.sub Rat.inv in
/-- Counterexample to Claim C5 as stated: on the third frame a scroll
command (`scroll 0`) IS emitted although the smoothed (history-averaged)
speed is `(2 * (-61435/12288) + 10)/3 = 5/18432`, whose magnitude is far
below the 0.5 activation threshold — the gate in `should_scroll` tests the
RAW per-frame speed (here `+10` at the top edge), not the smoothed one;
the smoothing happens only after the gate has already passed. -/
theorem C5_counterexample :
    (processTrace 1920 1080 initGHState [frC5a, frC5b, frC5c]).2 =
        [Command.scroll (-74), Command.scroll (-74), Command.scroll 0] ∧
      (processTrace 1920 1080 initGHState [frC5a, frC5b, frC5c]).1.scroll.scroll_history =
        [-61435/12288, -61435/12288, 10] ∧
      |(processTrace 1920 1080 initGHState
          [frC5a, frC5b, frC5c]).1.scroll.scroll_history.sum / 3| ≤ 1/2 ∧
      1/2 < |get_progressive_speed 0| := by
  refine ⟨by decide, by decide, by decide, by decide⟩

/-- Claim C5, amended to what the code does.  A scroll command is emitted in
a frame only if strictly more than the 0.02 s minimum interval elapsed since
the last emitted scroll command AND the magnitude of the RAW per-frame speed
(not the smoothed average, which is computed only after the gate passes)
strictly exceeds 0.5; consequently two frames at most the minimum interval
apart produce at most one emitted scroll command. -/
theorem C5_amended_scroll_gating :
    (∀ (wscr hscr : ℚ) (s : GHState) (fr : FrameInput) (n : ℤ),
        Command.scroll n ∈ (process_frame wscr hscr s fr).2 →
        SCROLL_DELAY < fr.t - s.scroll.last_scroll_time ∧
          ∃ lm, fr.hand = some lm ∧
            1/2 < |get_progressive_speed ((lm 0).2 : ℚ)|) ∧
      ∀ (wscr hscr : ℚ) (s : GHState) (fr1 fr2 : FrameInput),
        fr2.t - fr1.t ≤ SCROLL_DELAY →
        countScroll (process_frame wscr hscr s fr1).2 +
          countScroll (process_frame wscr hscr
            (process_frame wscr hscr s fr1).1 fr2).2 ≤ 1 := by
  constructor
  · intro wscr hscr s fr n hmem
    rcases process_frame_scroll_spec wscr hscr s fr with ⟨h0, _⟩ | ⟨lm, _, _, _, h3, h4⟩
    · exact absurd (scroll_mem_countScroll_pos _ n hmem) (by omega)
    · exact ⟨h3, lm, by assumption, h4⟩
  · intro wscr hscr s fr1 fr2 hclose
    rcases process_frame_scroll_spec wscr hscr s fr1 with ⟨h0, _⟩ | ⟨lm1, _, h1c, h1t, _, _⟩
    · rcases process_frame_scroll_spec wscr hscr (process_frame wscr hscr s fr1).1 fr2 with
        ⟨h0b, _⟩ | ⟨lm2, _, h2c, _, _, _⟩
      · omega
      · omega
    · rcases process_frame_scroll_spec wscr hscr (process_frame wscr hscr s fr1).1 fr2 with
        ⟨h0b, _⟩ | ⟨lm2, _, h2c, _, h2g, _⟩
      · omega
      · rw [h1t] at h2g
        linarith

unseal Rat.mul Rat.add Rat.sub Rat.inv in
/-- Witness for `C5_amended_scroll_gating`: the gate conditions at the
concrete emitting frame `frC5a` from the initial state, and the
at-most-one-command bound for the pair `frC5a`, `frC5d` (0.01 s apart). -/
theorem C5_amended_scroll_gating_witness :
    (SCROLL_DELAY < frC5a.t - initGHState.scroll.last_scroll_time ∧
        ∃ lm, frC5a.hand = some lm ∧
          1/2 < |get_progressive_speed ((lm 0).2 : ℚ)|) ∧
      countScroll (process_frame 1920 1080 initGHState frC5a).2 +
        countScroll (process_frame 1920 1080
          (process_frame 1920 1080 initGHState frC5a).1 frC5d).2 ≤ 1 :=
  ⟨C5_amended_scroll_gating.1 1920 1080 initGHState frC5a (-74) (by decide),
   C5_amended_scroll_gating.2 1920 1080 initGHState frC5a frC5d (by decide)⟩
